import Mathlib

set_option maxRecDepth 4000

/-!
Verification of the MEDI360 rule-based symptom classifier
(`medi360-backend/services/medicalAI.service.js`) and the caller-side
symptom extraction (`medi360-backend/controllers/healthProfile.controller.js`),
as a shallow embedding in Lean 4.

JavaScript strings are Lean `String`s; `str.includes(sub)` is substring
containment, embedded as infixhood of the underlying character lists.
JavaScript `Map` (insertion-ordered, update-in-place) is an association
list; `Array.prototype.sort` with comparator `b[1] - a[1]` is a stable
descending sort by the numeric component, embedded as a left-to-right
stable insertion sort.
-/

/-- JavaScript `s.includes(sub)`: `sub` occurs contiguously in `s`. -/
def jsIncludes (s sub : String) : Bool :=
  decide (sub.data <:+: s.data)

/-- Severity tiers used by the service (JS strings
'low', 'moderate', 'high', 'emergency'). -/
inductive Severity where
  | low
  | moderate
  | high
  | emergency
deriving DecidableEq, Repr

/-- Total order on tiers: low < moderate < high < emergency. -/
def severityRank : Severity → Nat
  | .low => 0
  | .moderate => 1
  | .high => 2
  | .emergency => 3

/-- One entry of the static symptom knowledge base (`symptomDatabase`):
a key phrase together with the record stored under it. -/
structure SymptomEntry where
  key : String
  categories : List String
  severity : Severity
  emergency : Bool
  relatedConditions : List String
deriving DecidableEq, Repr

/-- The static `symptomDatabase` of `MedicalAIService`, in declaration
order (JS object literals preserve insertion order of string keys). -/
def symptomDatabase : List SymptomEntry := [
  { key := "chest pain", categories := ["cardiovascular"], severity := .high,
    emergency := true,
    relatedConditions := ["heart attack", "angina", "pulmonary embolism"] },
  { key := "shortness of breath", categories := ["respiratory", "cardiovascular"],
    severity := .moderate, emergency := false,
    relatedConditions := ["asthma", "COPD", "anxiety"] },
  { key := "irregular heartbeat", categories := ["cardiovascular"],
    severity := .moderate, emergency := false,
    relatedConditions := ["arrhythmia", "atrial fibrillation"] },
  { key := "severe headache", categories := ["neurological"],
    severity := .moderate, emergency := false,
    relatedConditions := ["migraine", "tension headache", "cluster headache"] },
  { key := "sudden confusion", categories := ["neurological"],
    severity := .high, emergency := true,
    relatedConditions := ["stroke", "seizure", "hypoglycemia"] },
  { key := "dizziness", categories := ["neurological", "cardiovascular"],
    severity := .low, emergency := false,
    relatedConditions := ["vertigo", "low blood pressure", "dehydration"] },
  { key := "cough", categories := ["respiratory"], severity := .low,
    emergency := false,
    relatedConditions := ["common cold", "bronchitis", "pneumonia"] },
  { key := "fever", categories := ["general", "infection"], severity := .moderate,
    emergency := false,
    relatedConditions := ["infection", "flu", "viral illness"] },
  { key := "difficulty breathing", categories := ["respiratory"],
    severity := .high, emergency := true,
    relatedConditions := ["asthma attack", "pneumonia", "allergic reaction"] },
  { key := "nausea", categories := ["gastrointestinal"], severity := .low,
    emergency := false,
    relatedConditions := ["gastritis", "food poisoning", "pregnancy"] },
  { key := "abdominal pain", categories := ["gastrointestinal"],
    severity := .moderate, emergency := false,
    relatedConditions := ["gastritis", "appendicitis", "kidney stones"] },
  { key := "vomiting", categories := ["gastrointestinal"], severity := .moderate,
    emergency := false,
    relatedConditions := ["gastroenteritis", "food poisoning", "migraine"] },
  { key := "fatigue", categories := ["general"], severity := .low,
    emergency := false,
    relatedConditions := ["anemia", "depression", "sleep disorder"] },
  { key := "body aches", categories := ["general"], severity := .low,
    emergency := false,
    relatedConditions := ["flu", "viral infection", "fibromyalgia"] },
  { key := "loss of consciousness", categories := ["neurological"],
    severity := .emergency, emergency := true,
    relatedConditions := ["seizure", "stroke", "cardiac arrest"] }
]

/-- The fixed 8-entry `emergencySymptoms` keyword list. -/
def emergencySymptoms : List String := [
  "chest pain",
  "difficulty breathing",
  "sudden confusion",
  "loss of consciousness",
  "severe bleeding",
  "stroke symptoms",
  "severe allergic reaction",
  "suicidal thoughts"
]

/-- Caller-supplied health profile (`healthProfile` argument): the
service reads `age`, `knownConditions` and `currentMedications`. -/
structure HealthProfile where
  age : Int
  knownConditions : List String
  currentMedications : List String
deriving DecidableEq, Repr

/-- JS `s.toLowerCase()`: lower-case every character. -/
def jsToLower (s : String) : String :=
  String.mk (s.data.map Char.toLower)

/-- JS `s.trim()`: strip leading and trailing whitespace. -/
def jsTrim (s : String) : String :=
  String.mk
    (((s.data.dropWhile Char.isWhitespace).reverse.dropWhile Char.isWhitespace).reverse)

/-- JS `s.toLowerCase().trim()` applied to each symptom phrase in
`analyzeSymptoms`. -/
def normalizeSymptom (s : String) : String :=
  jsTrim (jsToLower s)

/-- Embedding of `checkEmergency`: some symptom phrase contains some emergency
keyword as a substring (`symptom.includes(emergency)` — one
direction only). -/
def checkEmergency (symptoms : List String) : Bool :=
  symptoms.any fun symptom =>
    emergencySymptoms.any fun e => jsIncludes symptom e

/-- Embedding of `findSymptomData`: first database entry whose key is contained in
the phrase or contains the phrase (`symptom.includes(key) ||
key.includes(symptom)`), iterating in declaration order. -/
def findSymptomData (symptom : String) : Option SymptomEntry :=
  symptomDatabase.find? fun e =>
    jsIncludes symptom e.key || jsIncludes e.key symptom

example : (findSymptomData "consciousness").map (fun e => e.severity)
    = some Severity.emergency := by decide

example : checkEmergency ["consciousness"] = false := by decide

example : jsIncludes "chest pain" "chest" = true := by decide

example : checkEmergency ["chest"] = false := by decide

/-- One step of the `symptoms.forEach` loop of `calculateSeverity`,
acting on the `(severityScore, maxSeverity)` pair.  NOTE: the JS source
writes `return 'emergency'` inside the `forEach` callback; in
JavaScript that only returns from the callback (the value is
discarded by `forEach`), so an emergency-tier entry contributes
nothing — the loop merely continues with the next phrase. -/
def scoreStep (acc : Nat × Severity) (symptom : String) : Nat × Severity :=
  match findSymptomData symptom with
  | none => acc
  | some d =>
    if d.severity = .emergency then acc
    else if d.severity = .high then (acc.1 + 3, .high)
    else if d.severity = .moderate then
      (acc.1 + 2, if acc.2 = .low then .moderate else acc.2)
    else (acc.1 + 1, acc.2)

/-- Embedding of `calculateSeverity`: accumulate the score and running max over the
phrases, add the health-profile adjustments, then map through the
fixed thresholds. -/
def calculateSeverity (symptoms : List String) (healthProfile : Option HealthProfile) :
    Severity :=
  let acc := symptoms.foldl scoreStep (0, Severity.low)
  let score :=
    match healthProfile with
    | none => acc.1
    | some p =>
      (if p.knownConditions.length > 0 then acc.1 + 1 else acc.1)
        + (if p.age > 65 then 1 else 0)
  if score ≥ 5 then .high
  else if score ≥ 3 then .moderate
  else acc.2

/-- Embedding of `conditionsMap.set(condition, count + 1)` on an insertion-ordered
map: update in place when the key is present, append otherwise. -/
def bumpCondition : List (String × Nat) → String → List (String × Nat)
  | [], c => [(c, 1)]
  | (k, n) :: rest, c =>
    if k = c then (k, n + 1) :: rest else (k, n) :: bumpCondition rest c

/-- The frequency map built by `identifyPossibleConditions` before
sorting, in first-encountered key order. -/
def conditionCounts (symptoms : List String) : List (String × Nat) :=
  symptoms.foldl
    (fun m symptom =>
      match findSymptomData symptom with
      | none => m
      | some d => d.relatedConditions.foldl bumpCondition m)
    []

/-- Insert one pair into a descending-sorted list, after every element
of greater or equal count: the insertion step of a stable descending
sort, which is what `Array.prototype.sort` (stable per the ECMAScript
spec) with comparator `b[1] - a[1]` computes. -/
def insertByFreq (x : String × Nat) : List (String × Nat) → List (String × Nat)
  | [] => [x]
  | y :: ys => if y.2 ≥ x.2 then y :: insertByFreq x ys else x :: y :: ys

/-- Stable descending sort by count (left-to-right insertion). -/
def sortByFreqDesc (l : List (String × Nat)) : List (String × Nat) :=
  l.foldl (fun acc x => insertByFreq x acc) []

/-- One `(condition, likelihood)` pair of the output. -/
structure Condition where
  condition : String
  likelihood : String
deriving DecidableEq, Repr

/-- Embedding of `identifyPossibleConditions`: count, sort by descending frequency,
keep at most 5, label likelihood by frequency. -/
def identifyPossibleConditions (symptoms : List String) : List Condition :=
  ((sortByFreqDesc (conditionCounts symptoms)).take 5).map
    fun p => { condition := p.1, likelihood := if p.2 > 1 then "high" else "moderate" }

/-- The three strings pushed for severity `high`. -/
def highSeverityRecs : List String := [
  "Consult a healthcare provider within 24 hours",
  "Monitor your symptoms closely",
  "Avoid strenuous activities"
]

/-- The two strings pushed for severity `moderate`. -/
def moderateSeverityRecs : List String := [
  "Consider scheduling a doctor appointment",
  "Track your symptoms over the next few days"
]

/-- The two strings pushed by the `else` branch (severity `low` or
anything else). -/
def lowSeverityRecs : List String := [
  "Monitor symptoms; they may resolve on their own",
  "Maintain proper rest and hydration"
]

/-- The three strings pushed when some phrase contains "fever". -/
def feverRecs : List String := [
  "Stay hydrated and rest",
  "Take temperature regularly",
  "Use over-the-counter fever reducers if needed"
]

/-- The three strings pushed when some phrase contains "cough". -/
def coughRecs : List String := [
  "Stay hydrated with warm fluids",
  "Use a humidifier if available",
  "Avoid irritants like smoke"
]

/-- The two strings pushed when the profile has known conditions. -/
def knownConditionsRecs : List String := [
  "Consider how symptoms may relate to your known conditions",
  "Contact your regular healthcare provider"
]

/-- The two strings pushed when the profile has current medications. -/
def medicationsRecs : List String := [
  "Check for potential drug interactions",
  "Consult pharmacist if taking new medications"
]

/-- Embedding of `generateRecommendations`: the `recommendations` array after the
sequence of conditional `push` blocks (the `possibleConditions`
parameter is accepted but never read by the JS body). -/
def generateRecommendations (symptoms : List String) (severity : Severity)
    (healthProfile : Option HealthProfile) (_possibleConditions : List Condition) :
    List String :=
  let recs :=
    if severity = .high then highSeverityRecs
    else if severity = .moderate then moderateSeverityRecs
    else lowSeverityRecs
  let recs :=
    if symptoms.any (fun s => jsIncludes s "fever") then recs ++ feverRecs else recs
  let recs :=
    if symptoms.any (fun s => jsIncludes s "cough") then recs ++ coughRecs else recs
  match healthProfile with
  | none => recs
  | some p =>
    let recs :=
      if p.knownConditions.length > 0 then recs ++ knownConditionsRecs else recs
    if p.currentMedications.length > 0 then recs ++ medicationsRecs else recs

/-- Embedding of `getDisclaimer()`. -/
def disclaimerText : String :=
  "This system provides general medical guidance and is not a substitute for professional medical advice, diagnosis, or treatment. Always seek the advice of your physician or other qualified health provider with any questions you may have regarding a medical condition."

/-- The analysis result object.  The emergency response object in JS
omits `possibleConditions` (modelled as the empty list) and the normal
response omits `urgentAction` and `emergencyNumber` (modelled as
`none`). -/
structure AnalysisResult where
  severity : Severity
  emergencyDetected : Bool
  identifiedSymptoms : List String
  possibleConditions : List Condition
  recommendations : List String
  urgentAction : Option String
  emergencyNumber : Option String
  disclaimer : String
deriving DecidableEq, Repr

/-- The fixed five-item action list of the emergency response. -/
def emergencyRecs : List String := [
  "🚨 Call emergency services (108) immediately",
  "Do not attempt to drive yourself",
  "Stay calm and follow dispatcher instructions",
  "Have someone stay with you until help arrives",
  "If alone, unlock your front door for emergency responders"
]

/-- Embedding of `generateEmergencyResponse(symptoms)`. -/
def generateEmergencyResponse (symptoms : List String) : AnalysisResult :=
  { severity := .emergency,
    emergencyDetected := true,
    identifiedSymptoms := symptoms,
    possibleConditions := [],
    recommendations := emergencyRecs,
    urgentAction := some "CALL EMERGENCY SERVICES IMMEDIATELY",
    emergencyNumber := some "108 (India) or local emergency number",
    disclaimer := "This is a medical emergency. Please seek immediate professional medical help." }

/-- Embedding of `analyzeSymptoms(symptoms, healthProfile, conversationHistory)`:
the top-level classifier.  The `conversationHistory` parameter is
accepted (defaulting to `[]` in JS) but never read by the body. -/
def analyzeSymptoms (symptoms : List String) (healthProfile : Option HealthProfile)
    (_conversationHistory : List String) : AnalysisResult :=
  let normalizedSymptoms := symptoms.map normalizeSymptom
  if checkEmergency normalizedSymptoms then
    generateEmergencyResponse normalizedSymptoms
  else
    let severity := calculateSeverity normalizedSymptoms healthProfile
    let possibleConditions := identifyPossibleConditions normalizedSymptoms
    let recommendations :=
      generateRecommendations normalizedSymptoms severity healthProfile possibleConditions
    { severity := severity,
      emergencyDetected := false,
      identifiedSymptoms := normalizedSymptoms,
      possibleConditions := possibleConditions,
      recommendations := recommendations,
      urgentAction := none,
      emergencyNumber := none,
      disclaimer := disclaimerText }

/-- The fixed 10-word symptom vocabulary of the chat controller
(`extractSymptoms` in `healthProfile.controller.js`). -/
def commonSymptoms : List String := [
  "fever", "headache", "pain", "cough", "nausea",
  "vomiting", "dizzy", "tired", "chest pain", "rash"
]

/-- Embedding of `extractSymptoms(message)`: the vocabulary words contained in the
lowercased message, in vocabulary order. -/
def extractSymptoms (message : String) : List String :=
  commonSymptoms.filter fun s => jsIncludes (jsToLower message) s

example : (analyzeSymptoms ["consciousness"] none []).severity = .low := by decide

example : (analyzeSymptoms ["chest"] none []).severity = .moderate := by decide

example : extractSymptoms "I have a Fever and bad cough" = ["fever", "cough"] := by
  decide

example : analyzeSymptoms [] none [] =
    { severity := .low, emergencyDetected := false, identifiedSymptoms := [],
      possibleConditions := [], recommendations := lowSeverityRecs,
      urgentAction := none, emergencyNumber := none,
      disclaimer := disclaimerText } := by decide

/-! ### Helper lemmas -/

/-- The keyword check succeeds exactly when some phrase contains some
keyword of the fixed list. -/
theorem checkEmergency_iff (l : List String) :
    checkEmergency l = true ↔
      ∃ p ∈ l, ∃ k ∈ emergencySymptoms, jsIncludes p k = true := by
  simp [checkEmergency, List.any_eq_true]

/-- When the keyword check fires, the classifier returns the fixed
emergency response. -/
theorem analyzeSymptoms_of_emergency (symptoms : List String)
    (hp : Option HealthProfile) (hist : List String)
    (h : checkEmergency (symptoms.map normalizeSymptom) = true) :
    analyzeSymptoms symptoms hp hist
      = generateEmergencyResponse (symptoms.map normalizeSymptom) := by
  simp [analyzeSymptoms, h]

/-- When the keyword check does not fire, the classifier returns the
assembled non-emergency result. -/
theorem analyzeSymptoms_of_no_emergency (symptoms : List String)
    (hp : Option HealthProfile) (hist : List String)
    (h : checkEmergency (symptoms.map normalizeSymptom) = false) :
    analyzeSymptoms symptoms hp hist =
      { severity := calculateSeverity (symptoms.map normalizeSymptom) hp,
        emergencyDetected := false,
        identifiedSymptoms := symptoms.map normalizeSymptom,
        possibleConditions := identifyPossibleConditions (symptoms.map normalizeSymptom),
        recommendations :=
          generateRecommendations (symptoms.map normalizeSymptom)
            (calculateSeverity (symptoms.map normalizeSymptom) hp) hp
            (identifyPossibleConditions (symptoms.map normalizeSymptom)),
        urgentAction := none,
        emergencyNumber := none,
        disclaimer := disclaimerText } := by
  simp [analyzeSymptoms, h]

/-! ### Claim theorems -/

/-- Claim C1 (code bug): a phrase that passes the keyword check and
matches the one emergency-tier knowledge-table entry
('loss of consciousness') does NOT make the classifier return severity
"emergency": the `return 'emergency'` of `calculateSeverity` sits
inside a `forEach` callback, so it only skips that phrase, and the
final severity here is "low". -/
theorem emergency_tier_entry_does_not_escalate :
    checkEmergency [normalizeSymptom "consciousness"] = false
    ∧ (findSymptomData (normalizeSymptom "consciousness")).map (fun e => e.severity)
        = some Severity.emergency
    ∧ calculateSeverity [normalizeSymptom "consciousness"] none = Severity.low
    ∧ (analyzeSymptoms ["consciousness"] none []).severity = Severity.low
    ∧ (analyzeSymptoms ["consciousness"] none []).emergencyDetected = false := by
  decide

/-- Claim C2 counterexample: the keyword check tests containment in one
direction only.  The phrase "chest" is contained in the keyword
"chest pain", yet the classifier does not report an emergency and does
aggregate conditions. -/
theorem keyword_reverse_containment_not_emergency :
    jsIncludes "chest pain" "chest" = true
    ∧ normalizeSymptom "chest" = "chest"
    ∧ "chest pain" ∈ emergencySymptoms
    ∧ (analyzeSymptoms ["chest"] none []).emergencyDetected = false
    ∧ (analyzeSymptoms ["chest"] none []).severity ≠ Severity.emergency
    ∧ (analyzeSymptoms ["chest"] none []).possibleConditions ≠ [] := by
  decide

/-- Claim C2 (amended): whenever some normalized phrase contains one of
the 8 fixed emergency keywords as a substring (the phrase-contains-
keyword direction only), the classifier returns severity "emergency",
emergency flag true, the fixed 5-item action list, and an empty
condition list. -/
theorem emergency_keyword_in_phrase_short_circuits (symptoms : List String)
    (hp : Option HealthProfile) (hist : List String)
    (h : ∃ p ∈ symptoms.map normalizeSymptom,
          ∃ k ∈ emergencySymptoms, jsIncludes p k = true) :
    (analyzeSymptoms symptoms hp hist).severity = Severity.emergency
    ∧ (analyzeSymptoms symptoms hp hist).emergencyDetected = true
    ∧ (analyzeSymptoms symptoms hp hist).recommendations = emergencyRecs
    ∧ (analyzeSymptoms symptoms hp hist).possibleConditions = [] := by
  have hc : checkEmergency (symptoms.map normalizeSymptom) = true :=
    (checkEmergency_iff _).mpr h
  rw [analyzeSymptoms_of_emergency symptoms hp hist hc]
  exact ⟨rfl, rfl, rfl, rfl⟩

/-- Witness for claim C2 at the concrete input `["Chest Pain"]`. -/
theorem emergency_keyword_in_phrase_short_circuits_witness :
    (analyzeSymptoms ["Chest Pain"] none []).severity = Severity.emergency
    ∧ (analyzeSymptoms ["Chest Pain"] none []).emergencyDetected = true
    ∧ (analyzeSymptoms ["Chest Pain"] none []).recommendations = emergencyRecs
    ∧ (analyzeSymptoms ["Chest Pain"] none []).possibleConditions = [] :=
  emergency_keyword_in_phrase_short_circuits ["Chest Pain"] none [] (by decide)

/-- Claim C3: if the emergency flag of a result is true then its
severity is "emergency", and the result is exactly the fixed emergency
script (no score accumulation or recommendation assembly happened). -/
theorem emergency_flag_forces_emergency_severity (symptoms : List String)
    (hp : Option HealthProfile) (hist : List String)
    (h : (analyzeSymptoms symptoms hp hist).emergencyDetected = true) :
    (analyzeSymptoms symptoms hp hist).severity = Severity.emergency
    ∧ analyzeSymptoms symptoms hp hist
        = generateEmergencyResponse (symptoms.map normalizeSymptom) := by
  by_cases hc : checkEmergency (symptoms.map normalizeSymptom) = true
  · rw [analyzeSymptoms_of_emergency symptoms hp hist hc]
    exact ⟨rfl, rfl⟩
  · exfalso
    rw [analyzeSymptoms_of_no_emergency symptoms hp hist
      (Bool.eq_false_iff.mpr hc)] at h
    exact Bool.false_ne_true h

/-- Witness for claim C3 at the concrete input
`["loss of consciousness"]`. -/
theorem emergency_flag_forces_emergency_severity_witness :
    (analyzeSymptoms ["loss of consciousness"] none []).severity = Severity.emergency
    ∧ analyzeSymptoms ["loss of consciousness"] none []
        = generateEmergencyResponse
            (["loss of consciousness"].map normalizeSymptom) :=
  emergency_flag_forces_emergency_severity ["loss of consciousness"] none []
    (by decide)

/-- Claim C4: the empty symptom list yields severity "low", no
emergency, no conditions, and exactly the generic low-severity
recommendation block. -/
theorem empty_symptom_list_degrades_to_low :
    analyzeSymptoms [] none [] =
      { severity := Severity.low, emergencyDetected := false,
        identifiedSymptoms := [], possibleConditions := [],
        recommendations := lowSeverityRecs,
        urgentAction := none, emergencyNumber := none,
        disclaimer := disclaimerText } := by
  decide

/-- Claim C10: the `conversationHistory` argument has no influence on
the classifier result. -/
theorem conversation_history_noninterference (symptoms : List String)
    (hp : Option HealthProfile) (h1 h2 : List String) :
    analyzeSymptoms symptoms hp h1 = analyzeSymptoms symptoms hp h2 :=
  rfl

/-- Claim C9: symptom extraction returns exactly the vocabulary words
contained in the lowercased message, in vocabulary declaration order
(the result is a sublist of the vocabulary, and membership is
containment in the lowercased message). -/
theorem extractSymptoms_characterization (message : String) :
    List.Sublist (extractSymptoms message) commonSymptoms
    ∧ ∀ s : String, s ∈ extractSymptoms message ↔
        s ∈ commonSymptoms ∧ jsIncludes (jsToLower message) s = true := by
  constructor
  · exact List.filter_sublist _
  · intro s
    simp [extractSymptoms, List.mem_filter]

/-- Witness for claim C9 at a concrete message. -/
theorem extractSymptoms_characterization_witness :
    List.Sublist (extractSymptoms "I have a Fever and bad cough") commonSymptoms
    ∧ ("fever" ∈ extractSymptoms "I have a Fever and bad cough" ↔
        "fever" ∈ commonSymptoms
        ∧ jsIncludes (jsToLower "I have a Fever and bad cough") "fever" = true) :=
  ⟨(extractSymptoms_characterization "I have a Fever and bad cough").1,
   (extractSymptoms_characterization "I have a Fever and bad cough").2 "fever"⟩

/-- Non-emergency recommendation lists decompose into the five blocks
in order: severity block, fever block, cough block, known-conditions
block, medications block. -/
theorem recommendations_decomposition (symptoms : List String)
    (hp : Option HealthProfile) (hist : List String)
    (h : checkEmergency (symptoms.map normalizeSymptom) = false) :
    (analyzeSymptoms symptoms hp hist).recommendations =
      (if (analyzeSymptoms symptoms hp hist).severity = Severity.high then
        highSeverityRecs
       else if (analyzeSymptoms symptoms hp hist).severity = Severity.moderate then
        moderateSeverityRecs
       else lowSeverityRecs)
      ++ (if (symptoms.map normalizeSymptom).any (fun s => jsIncludes s "fever") then
            feverRecs
          else [])
      ++ (if (symptoms.map normalizeSymptom).any (fun s => jsIncludes s "cough") then
            coughRecs
          else [])
      ++ (match hp with
          | none => []
          | some p =>
            if p.knownConditions.length > 0 then knownConditionsRecs else [])
      ++ (match hp with
          | none => []
          | some p =>
            if p.currentMedications.length > 0 then medicationsRecs else []) := by
  rw [analyzeSymptoms_of_no_emergency symptoms hp hist h]
  cases hp with
  | none =>
    simp only [generateRecommendations]
    split_ifs <;> simp
  | some p =>
    simp only [generateRecommendations]
    split_ifs <;> simp

/-- Claim C5 counterexample: the severity-tier boilerplate is NOT three
strings for every tier — the moderate and low tiers push only two
strings each, so the empty input (low tier, nothing else triggered)
yields a 2-element recommendation list, not a 3-element one. -/
theorem severity_blocks_not_three_strings :
    (analyzeSymptoms [] none []).recommendations = lowSeverityRecs
    ∧ lowSeverityRecs.length = 2
    ∧ (analyzeSymptoms ["vomiting"] none []).severity = Severity.moderate
    ∧ (analyzeSymptoms ["vomiting"] none []).recommendations = moderateSeverityRecs
    ∧ moderateSeverityRecs.length = 2
    ∧ (analyzeSymptoms [] none []).recommendations.length ≠ 3 := by
  decide

/-- Claim C5 (amended): for every non-emergency classification the
recommendation list is the severity-tier block (3 fixed strings for
high, 2 for moderate, 2 for low), then 3 fixed fever strings when some
normalized phrase contains "fever", then 3 fixed cough strings when
some phrase contains "cough", then 2 fixed strings when the known-
condition list is non-empty, then 2 fixed strings when the medication
list is non-empty, in exactly that block order. -/
theorem recommendation_blocks_in_order (symptoms : List String)
    (hp : Option HealthProfile) (hist : List String)
    (h : checkEmergency (symptoms.map normalizeSymptom) = false) :
    (analyzeSymptoms symptoms hp hist).recommendations =
      (if (analyzeSymptoms symptoms hp hist).severity = Severity.high then
        highSeverityRecs
       else if (analyzeSymptoms symptoms hp hist).severity = Severity.moderate then
        moderateSeverityRecs
       else lowSeverityRecs)
      ++ (if (symptoms.map normalizeSymptom).any (fun s => jsIncludes s "fever") then
            feverRecs
          else [])
      ++ (if (symptoms.map normalizeSymptom).any (fun s => jsIncludes s "cough") then
            coughRecs
          else [])
      ++ (match hp with
          | none => []
          | some p =>
            if p.knownConditions.length > 0 then knownConditionsRecs else [])
      ++ (match hp with
          | none => []
          | some p =>
            if p.currentMedications.length > 0 then medicationsRecs else []) :=
  recommendations_decomposition symptoms hp hist h

/-- Witness for claim C5: a feverish input with a full health profile
triggers every block after the severity block. -/
theorem recommendation_blocks_in_order_witness :
    checkEmergency (["fever and cough"].map normalizeSymptom) = false
    ∧ (analyzeSymptoms ["fever and cough"]
        (some { age := 70, knownConditions := ["diabetes"],
                currentMedications := ["metformin"] }) []).recommendations =
      (if (analyzeSymptoms ["fever and cough"]
            (some { age := 70, knownConditions := ["diabetes"],
                    currentMedications := ["metformin"] }) []).severity
          = Severity.high then
        highSeverityRecs
       else if (analyzeSymptoms ["fever and cough"]
            (some { age := 70, knownConditions := ["diabetes"],
                    currentMedications := ["metformin"] }) []).severity
          = Severity.moderate then
        moderateSeverityRecs
       else lowSeverityRecs)
      ++ (if (["fever and cough"].map normalizeSymptom).any
              (fun s => jsIncludes s "fever") then
            feverRecs
          else [])
      ++ (if (["fever and cough"].map normalizeSymptom).any
              (fun s => jsIncludes s "cough") then
            coughRecs
          else [])
      ++ knownConditionsRecs
      ++ medicationsRecs :=
  ⟨by decide,
   recommendation_blocks_in_order ["fever and cough"]
     (some { age := 70, knownConditions := ["diabetes"],
             currentMedications := ["metformin"] }) [] (by decide)⟩

/-- Claim C8 counterexample: a phrase containing "fever" that also
trips the emergency keyword check yields the fixed emergency action
list, which does not contain the fever-specific strings — so "fever"
inputs do NOT always get the fever block. -/
theorem fever_recs_missing_in_emergency :
    jsIncludes (normalizeSymptom "fever and chest pain") "fever" = true
    ∧ (analyzeSymptoms ["fever and chest pain"] none []).recommendations
        = emergencyRecs
    ∧ "Stay hydrated and rest"
        ∉ (analyzeSymptoms ["fever and chest pain"] none []).recommendations := by
  decide

/-- Claim C8 (amended): for every classification that passes the
emergency keyword check, if some normalized phrase contains "fever"
then the 3 fixed fever strings appear (as a contiguous block) in the
recommendations, whatever the severity tier; likewise for "cough". -/
theorem fever_cough_recs_in_nonemergency (symptoms : List String)
    (hp : Option HealthProfile) (hist : List String)
    (h : checkEmergency (symptoms.map normalizeSymptom) = false) :
    ((symptoms.map normalizeSymptom).any (fun s => jsIncludes s "fever") = true →
      List.Sublist feverRecs (analyzeSymptoms symptoms hp hist).recommendations)
    ∧ ((symptoms.map normalizeSymptom).any (fun s => jsIncludes s "cough") = true →
      List.Sublist coughRecs (analyzeSymptoms symptoms hp hist).recommendations) := by
  rw [recommendations_decomposition symptoms hp hist h]
  constructor
  · intro hf
    rw [hf]
    simp only [if_true]
    exact (((List.sublist_append_right _ feverRecs).trans
      (List.sublist_append_left _ _)).trans
      (List.sublist_append_left _ _)).trans (List.sublist_append_left _ _)
  · intro hc
    rw [hc]
    simp only [if_true]
    exact ((List.sublist_append_right _ coughRecs).trans
      (List.sublist_append_left _ _)).trans (List.sublist_append_left _ _)

/-- Witness for claim C8 at the concrete input `["fever and cough"]`. -/
theorem fever_cough_recs_in_nonemergency_witness :
    List.Sublist feverRecs
      (analyzeSymptoms ["fever and cough"] none []).recommendations
    ∧ List.Sublist coughRecs
      (analyzeSymptoms ["fever and cough"] none []).recommendations :=
  ⟨(fever_cough_recs_in_nonemergency ["fever and cough"] none [] (by decide)).1
      (by decide),
   (fever_cough_recs_in_nonemergency ["fever and cough"] none [] (by decide)).2
      (by decide)⟩

/-- Membership in an insertion step. -/
theorem mem_insertByFreq (x z : String × Nat) (l : List (String × Nat)) :
    z ∈ insertByFreq x l ↔ z = x ∨ z ∈ l := by
  induction l with
  | nil => simp [insertByFreq]
  | cons y ys ih =>
    simp only [insertByFreq]
    split
    · simp only [List.mem_cons, ih]
      tauto
    · simp [List.mem_cons]

/-- Insertion preserves descending sortedness by count. -/
theorem sortedDesc_insertByFreq (x : String × Nat) (l : List (String × Nat))
    (h : l.Pairwise (fun a b => b.2 ≤ a.2)) :
    (insertByFreq x l).Pairwise (fun a b => b.2 ≤ a.2) := by
  induction l with
  | nil => simp [insertByFreq]
  | cons y ys ih =>
    rw [List.pairwise_cons] at h
    obtain ⟨hy, hys⟩ := h
    simp only [insertByFreq]
    split
    · rename_i hge
      rw [List.pairwise_cons]
      refine ⟨?_, ih hys⟩
      intro z hz
      rcases (mem_insertByFreq x z ys).mp hz with rfl | hzys
      · exact hge
      · exact hy z hzys
    · rename_i hlt
      rw [List.pairwise_cons]
      refine ⟨?_, List.pairwise_cons.mpr ⟨hy, hys⟩⟩
      intro z hz
      rcases List.mem_cons.mp hz with rfl | hzys
      · omega
      · have := hy z hzys
        omega

/-- The accumulated insertion sort is sorted whenever the accumulator
is. -/
theorem sortedDesc_foldl_insert (l : List (String × Nat))
    (acc : List (String × Nat)) (h : acc.Pairwise (fun a b => b.2 ≤ a.2)) :
    (l.foldl (fun a x => insertByFreq x a) acc).Pairwise (fun a b => b.2 ≤ a.2) := by
  induction l generalizing acc with
  | nil => exact h
  | cons x xs ih => exact ih _ (sortedDesc_insertByFreq x acc h)

/-- The sort is sorted by descending count. -/
theorem sortByFreqDesc_sorted (l : List (String × Nat)) :
    (sortByFreqDesc l).Pairwise (fun a b => b.2 ≤ a.2) :=
  sortedDesc_foldl_insert l [] (by simp)

/-- Inserting into a sorted list puts the new element after every
element of the same count: the count-`k` elements are preserved, with
the new one (if of count `k`) at the end. -/
theorem filter_insertByFreq (x : String × Nat) (l : List (String × Nat)) (k : Nat)
    (h : l.Pairwise (fun a b => b.2 ≤ a.2)) :
    (insertByFreq x l).filter (fun p => p.2 == k)
      = if x.2 = k then l.filter (fun p => p.2 == k) ++ [x]
        else l.filter (fun p => p.2 == k) := by
  induction l with
  | nil =>
    simp only [insertByFreq, List.filter_cons, List.filter_nil]
    split_ifs <;> simp_all
  | cons y ys ih =>
    rw [List.pairwise_cons] at h
    obtain ⟨hy, hys⟩ := h
    simp only [insertByFreq]
    split
    · rename_i hge
      rw [List.filter_cons, List.filter_cons, ih hys]
      by_cases hyk : (y.2 == k) = true <;> by_cases hxk : x.2 = k <;>
        simp [hyk, hxk]
    · rename_i hlt
      have hnil : (y :: ys).filter (fun p => p.2 == k) = [] ∨ x.2 ≠ k := by
        by_cases hxk : x.2 = k
        · left
          rw [List.filter_eq_nil_iff]
          intro z hz
          rcases List.mem_cons.mp hz with rfl | hzys
          · simp only [beq_iff_eq]
            omega
          · have := hy z hzys
            simp only [beq_iff_eq]
            omega
        · right
          exact hxk
      rw [List.filter_cons]
      by_cases hxk : x.2 = k
      · rcases hnil with hnil | hne
        · simp [hxk, hnil]
        · exact absurd hxk hne
      · simp [hxk]

/-- The accumulated insertion sort is stable: for each count `k`,
the count-`k` elements of the result are those of the accumulator
followed by those of the input, in their original order. -/
theorem filter_foldl_insert (l : List (String × Nat))
    (acc : List (String × Nat)) (k : Nat)
    (h : acc.Pairwise (fun a b => b.2 ≤ a.2)) :
    (l.foldl (fun a x => insertByFreq x a) acc).filter (fun p => p.2 == k)
      = acc.filter (fun p => p.2 == k) ++ l.filter (fun p => p.2 == k) := by
  induction l generalizing acc with
  | nil => simp
  | cons x xs ih =>
    rw [List.foldl_cons, ih _ (sortedDesc_insertByFreq x acc h),
      filter_insertByFreq x acc k h, List.filter_cons]
    by_cases hxk : x.2 = k
    · simp [hxk, List.append_assoc]
    · simp [hxk]

/-- The sort is a stable permutation: for each count `k` it preserves
the subsequence of count-`k` elements. -/
theorem sortByFreqDesc_stable (l : List (String × Nat)) (k : Nat) :
    (sortByFreqDesc l).filter (fun p => p.2 == k)
      = l.filter (fun p => p.2 == k) := by
  simpa using filter_foldl_insert l [] k (by simp)

/-- Insertion adds exactly one element. -/
theorem length_insertByFreq (x : String × Nat) (l : List (String × Nat)) :
    (insertByFreq x l).length = l.length + 1 := by
  induction l with
  | nil => rfl
  | cons y ys ih =>
    simp only [insertByFreq]
    split <;> simp [ih]

/-- The accumulated insertion sort preserves total length. -/
theorem length_foldl_insert (l : List (String × Nat))
    (acc : List (String × Nat)) :
    (l.foldl (fun a x => insertByFreq x a) acc).length = acc.length + l.length := by
  induction l generalizing acc with
  | nil => simp
  | cons x xs ih =>
    rw [List.foldl_cons, ih, length_insertByFreq]
    simp only [List.length_cons]
    omega

/-- The sort preserves length. -/
theorem length_sortByFreqDesc (l : List (String × Nat)) :
    (sortByFreqDesc l).length = l.length := by
  simpa using length_foldl_insert l []

/-- Claim C6: the condition list is the frequency map of the matched
entries, stably sorted by descending frequency (ties in first-
encountered order), capped at 5 entries (exactly 5 when more than 5
distinct names occur), each labelled "high" when its frequency
exceeds 1 and "moderate" otherwise. -/
theorem possible_conditions_sorted_capped (symptoms : List String) :
    (sortByFreqDesc (conditionCounts symptoms)).Pairwise (fun a b => b.2 ≤ a.2)
    ∧ (∀ k : Nat,
        (sortByFreqDesc (conditionCounts symptoms)).filter (fun p => p.2 == k)
          = (conditionCounts symptoms).filter (fun p => p.2 == k))
    ∧ identifyPossibleConditions symptoms
        = ((sortByFreqDesc (conditionCounts symptoms)).take 5).map
            (fun p => { condition := p.1,
                        likelihood := if p.2 > 1 then "high" else "moderate" })
    ∧ (identifyPossibleConditions symptoms).length
        = min (conditionCounts symptoms).length 5
    ∧ (5 < (conditionCounts symptoms).length →
        (identifyPossibleConditions symptoms).length = 5) := by
  have hlen : (identifyPossibleConditions symptoms).length
      = min (conditionCounts symptoms).length 5 := by
    simp only [identifyPossibleConditions, List.length_map, List.length_take,
      length_sortByFreqDesc]
    omega
  refine ⟨sortByFreqDesc_sorted _, sortByFreqDesc_stable _, rfl, hlen, ?_⟩
  intro hgt
  omega

/-- Witness for claim C6: two phrases contributing six distinct
conditions are capped at five. -/
theorem possible_conditions_sorted_capped_witness :
    5 < (conditionCounts ["chest pain", "cough"]).length
    ∧ (identifyPossibleConditions ["chest pain", "cough"]).length = 5 :=
  ⟨by decide,
   (possible_conditions_sorted_capped ["chest pain", "cough"]).2.2.2.2 (by decide)⟩

/-- The combined health-profile score adjustment of
`calculateSeverity` (+1 for non-empty known conditions, +1 for
age over 65). -/
def profileBonus : Option HealthProfile → Nat
  | none => 0
  | some p =>
    (if p.knownConditions.length > 0 then 1 else 0) + (if p.age > 65 then 1 else 0)

/-- Severity computation rephrased with the profile adjustment as a
single added bonus. -/
theorem calculateSeverity_eq (l : List String) (hp : Option HealthProfile) :
    calculateSeverity l hp =
      (if (l.foldl scoreStep (0, Severity.low)).1 + profileBonus hp ≥ 5 then
        Severity.high
       else if (l.foldl scoreStep (0, Severity.low)).1 + profileBonus hp ≥ 3 then
        Severity.moderate
       else (l.foldl scoreStep (0, Severity.low)).2) := by
  cases hp with
  | none => simp [calculateSeverity, profileBonus]
  | some p =>
    simp only [calculateSeverity, profileBonus]
    split_ifs <;> rfl

/-- One scoring step cannot lower the score, never produces the
emergency tier, and only reports tier high with a score of at
least 3. -/
theorem scoreStep_props (s : Nat) (m : Severity) (x : String)
    (h1 : m = Severity.high → 3 ≤ s) (h2 : m ≠ Severity.emergency) :
    ((scoreStep (s, m) x).2 = Severity.high → 3 ≤ (scoreStep (s, m) x).1)
    ∧ (scoreStep (s, m) x).2 ≠ Severity.emergency
    ∧ s ≤ (scoreStep (s, m) x).1 := by
  rcases hfd : findSymptomData x with _ | d
  · simp only [scoreStep, hfd]
    exact ⟨h1, h2, Nat.le_refl _⟩
  · rcases hsev : d.severity <;>
      simp only [scoreStep, hfd, hsev] <;>
      rcases m <;> simp_all <;> omega

/-- The scoring fold keeps the invariant of `scoreStep_props` and is
monotone in the score. -/
theorem foldl_scoreStep_props (l : List String) (s : Nat) (m : Severity)
    (h1 : m = Severity.high → 3 ≤ s) (h2 : m ≠ Severity.emergency) :
    ((l.foldl scoreStep (s, m)).2 = Severity.high → 3 ≤ (l.foldl scoreStep (s, m)).1)
    ∧ (l.foldl scoreStep (s, m)).2 ≠ Severity.emergency
    ∧ s ≤ (l.foldl scoreStep (s, m)).1 := by
  induction l generalizing s m with
  | nil => exact ⟨h1, h2, Nat.le_refl _⟩
  | cons x xs ih =>
    rw [List.foldl_cons]
    obtain ⟨g1, g2, g3⟩ := scoreStep_props s m x h1 h2
    rcases hx : scoreStep (s, m) x with ⟨s', m'⟩
    rw [hx] at g1 g2 g3
    obtain ⟨f1, f2, f3⟩ := ih s' m' g1 g2
    exact ⟨f1, f2, Nat.le_trans g3 f3⟩

/-- Every tier has rank at most 3. -/
theorem severityRank_le_three (v : Severity) : severityRank v ≤ 3 := by
  cases v <;> decide

/-- The keyword check over the concatenation of two phrase lists. -/
theorem checkEmergency_append (l1 l2 : List String) :
    checkEmergency (l1 ++ l2) = (checkEmergency l1 || checkEmergency l2) := by
  simp [checkEmergency, List.any_append]

/-- Claim C7: appending one phrase whose database lookup yields a
high-tier entry never lowers the severity tier of the classification
(in the order low < moderate < high < emergency). -/
theorem severity_monotone_under_high_append (symptoms : List String)
    (hp : Option HealthProfile) (hist : List String) (p : String)
    (h : (findSymptomData (normalizeSymptom p)).map (fun e => e.severity)
          = some Severity.high) :
    severityRank (analyzeSymptoms symptoms hp hist).severity
      ≤ severityRank (analyzeSymptoms (symptoms ++ [p]) hp hist).severity := by
  obtain ⟨d, hopt, hsev⟩ := Option.map_eq_some'.mp h
  have hmap : (symptoms ++ [p]).map normalizeSymptom
      = symptoms.map normalizeSymptom ++ [normalizeSymptom p] := by
    simp
  by_cases hc2 : checkEmergency ((symptoms ++ [p]).map normalizeSymptom) = true
  · rw [analyzeSymptoms_of_emergency (symptoms ++ [p]) hp hist hc2]
    exact severityRank_le_three _
  · have hc2f : checkEmergency ((symptoms ++ [p]).map normalizeSymptom) = false :=
      Bool.eq_false_iff.mpr hc2
    have hc1f : checkEmergency (symptoms.map normalizeSymptom) = false := by
      rw [hmap, checkEmergency_append] at hc2f
      exact (Bool.or_eq_false_iff.mp hc2f).1
    rw [analyzeSymptoms_of_no_emergency symptoms hp hist hc1f,
      analyzeSymptoms_of_no_emergency (symptoms ++ [p]) hp hist hc2f]
    simp only
    rw [calculateSeverity_eq, calculateSeverity_eq, hmap, List.foldl_append]
    rcases hacc : (symptoms.map normalizeSymptom).foldl scoreStep (0, Severity.low)
      with ⟨s, m⟩
    obtain ⟨i1, i2, _⟩ := foldl_scoreStep_props (symptoms.map normalizeSymptom) 0
      Severity.low (by intro hm; cases hm) (by decide)
    rw [hacc] at i1 i2
    have hstep : List.foldl scoreStep (s, m) [normalizeSymptom p]
        = (s + 3, Severity.high) := by
      simp [scoreStep, hopt, hsev]
    rw [hstep]
    rcases m <;> simp_all [severityRank] <;> split_ifs <;>
      simp_all [severityRank] <;> omega

/-- Witness for claim C7: appending "chest" (which looks up the
high-tier 'chest pain' entry) to `["cough"]`. -/
theorem severity_monotone_under_high_append_witness :
    (findSymptomData (normalizeSymptom "chest")).map (fun e => e.severity)
      = some Severity.high
    ∧ severityRank (analyzeSymptoms ["cough"] none []).severity
        ≤ severityRank (analyzeSymptoms (["cough"] ++ ["chest"]) none []).severity :=
  ⟨by decide,
   severity_monotone_under_high_append ["cough"] none [] "chest" (by decide)⟩
